import Mathlib

/-!
Shallow embedding of the study-session backend (src/main.py) and proofs of the
spec claims about it.  Python strings are modelled as lists of characters,
UTC timestamps as natural numbers, and the Mongo collections as Lean lists.
Each successive `datetime.now(timezone.utc)` call in a handler becomes an
explicit timestamp argument, in program order.
-/

namespace StudyBackend

/-- Python strings are modelled as lists of characters. -/
abbrev Str := List Char

/-- ASCII fragment of the whitespace class removed by Python `str.strip()`. -/
def isPySpace (c : Char) : Bool :=
  c == ' ' || c == '\t' || c == '\n' || c == '\r' || c == '\x0b' || c == '\x0c'

/-- Removal of leading whitespace, as in Python `str.lstrip()`. -/
def lstrip (s : Str) : Str := s.dropWhile isPySpace

/-- Removal of trailing whitespace, as in Python `str.rstrip()`. -/
def rstrip (s : Str) : Str := (s.reverse.dropWhile isPySpace).reverse

/-- Python `str.strip()`: drop whitespace from both ends. -/
def strip (s : Str) : Str := rstrip (lstrip s)

/-- The blank-line separator, a double newline. -/
def nn : Str := "\n\n".toList

/-- First section of the generated text; the only section that interpolates
the cleaned topic (src/main.py line 48). -/
def quickSummarySection (tc : Str) : Str :=
  "Quick summary\n- ".toList ++ tc ++ " in one sentence: [A clear, simple definition].".toList

/-- Static section (src/main.py lines 49-51). -/
def keyIdeasSection : Str :=
  "Key ideas\n- Concept 1: what it is and why it matters\n- Concept 2: how it connects\n- Concept 3: common pitfalls".toList

/-- Static section (src/main.py lines 52-54). -/
def stepsSection : Str :=
  "Step-by-step breakdown\n1) Start with the core definition\n2) Build an intuitive picture\n3) Add the formal detail\n4) Work through a tiny example\n5) Check your understanding".toList

/-- Static section (src/main.py lines 55-57). -/
def analogySection : Str :=
  "Analogy\n- Imagine you\x27re explaining it to a 10-year-old using a real-life story.".toList

/-- Static section (src/main.py lines 58-60). -/
def workedExampleSection : Str :=
  "Worked example\n- Problem: a small, realistic question about the topic\n- Solution: show the steps with 1-2 short calculations or bullet points".toList

/-- Static section (src/main.py lines 61-63). -/
def commonMistakesSection : Str :=
  "Common mistakes\n- Misunderstanding A\n- Misunderstanding B\n- Shortcut to avoid them".toList

/-- Static section (src/main.py lines 64-66). -/
def selfQuizSection : Str :=
  "Rapid self-quiz\n- Q1: ...\n- Q2: ...\n- Q3: ...\n(Answer in your head first, then check with notes)".toList

/-- Static section (src/main.py lines 67-69). -/
def studyPlanSection : Str :=
  "Mini study plan (20 minutes)\n- 5m: review summary + key ideas\n- 10m: do 2 tiny problems\n- 5m: reflect: what still feels fuzzy?".toList

/-- The `sections` list built by `generate_explanation`, in append order
(src/main.py lines 47-69). -/
def sectionsList (tc : Str) : List Str :=
  [quickSummarySection tc, keyIdeasSection, stepsSection, analogySection,
   workedExampleSection, commonMistakesSection, selfQuizSection, studyPlanSection]

/-- The literal label opening the header line. -/
def topicLabel : Str := "Topic: ".toList

/-- `generate_explanation` (src/main.py lines 45-73): header with the cleaned
topic and an equals-sign separator line, a blank line, then the eight sections
joined by blank lines.  `topic_clean = topic.strip()` is inlined as
`strip topic`. -/
def generate_explanation (topic : Str) : Str :=
  (topicLabel ++ strip topic ++ '\n' :: List.replicate (7 + (strip topic).length) '=')
    ++ nn ++ List.intercalate nn (sectionsList (strip topic))

/-- Header shape exactly as the spec words it: the literal text
`Topic: t` on one line followed by a line of equals signs whose length is
`7 + length t`.  Used to compare the spec description with the code. -/
def specHeader (t : Str) : Str :=
  "Topic: ".toList ++ t ++ '\n' :: List.replicate (7 + t.length) '='

/-- The eight section titles in the order the spec fixes them. -/
def specTitles : List Str :=
  ["Quick summary".toList, "Key ideas".toList, "Step-by-step breakdown".toList,
   "Analogy".toList, "Worked example".toList, "Common mistakes".toList,
   "Rapid self-quiz".toList, "Mini study plan".toList]

/-- A document of the `message` collection.  The store-generated `_id` and the
ISO-8601 rendering performed by `to_str_id` are not modelled; the claims under
check are about the inserted fields. -/
structure Msg where
  session_id : Str
  role : Str
  content : Str
  created_at : Nat
  updated_at : Nat

/-- A document of the `studysession` collection; `oid` is the store `_id`
rendered as its 24-character hex string. -/
structure SessionDoc where
  oid : Str
  title : Str
  created_at : Nat
  updated_at : Nat

/-- The document database: the two collections used by src/main.py. -/
structure DB where
  studysession : List SessionDoc
  message : List Msg

/-- Errors a handler can surface: the HTTP 500 raised when `db is None`, and
the pydantic request-validation failure. -/
inductive ApiError where
  | databaseNotConfigured
  | validation

/-- The `user` role string. -/
def userRole : Str := "user".toList

/-- The `assistant` role string. -/
def assistantRole : Str := "assistant".toList

/-- Hexadecimal digit test, as used by bson ObjectId validity. -/
def isHexChar (c : Char) : Bool :=
  c.isDigit || (decide ('a' ≤ c) && decide (c ≤ 'f')) || (decide ('A' ≤ c) && decide (c ≤ 'F'))

/-- `bson.ObjectId.is_valid` on a string argument: exactly 24 hex characters. -/
def objectIdIsValid (s : Str) : Bool :=
  s.length == 24 && s.all isHexChar

/-- The `update_one({_id: oid}, {$set: {updated_at: t}})` call on the
`studysession` collection: sets `updated_at` on the matching document, a no-op
when no document matches. -/
def updateSessionUpdatedAt (sid : Str) (t : Nat) (coll : List SessionDoc) : List SessionDoc :=
  coll.map (fun s => if s.oid == sid then { s with updated_at := t } else s)

/-- Insertion into a list sorted by `le`. -/
def insertSorted {α : Type} (le : α → α → Bool) (a : α) : List α → List α
  | [] => [a]
  | b :: bs => if le a b then a :: b :: bs else b :: insertSorted le a bs

/-- Insertion sort by `le`; stands in for the store's `sort` on a cursor. -/
def sortBy {α : Type} (le : α → α → Bool) : List α → List α
  | [] => []
  | a :: rest => insertSorted le a (sortBy le rest)

/-- `POST /api/sessions` (src/main.py lines 120-131).  Pydantic validates the
raw `title` against `min_length=1, max_length=200` before the handler body
runs; the handler strips the title for storage and returns the new id with the
stored title.  `now` is the single `datetime.now` read, `newId` the
store-generated identifier. -/
def create_session (title : Str) (db? : Option DB) (now : Nat) (newId : Str) :
    Except ApiError (DB × Str × Str) :=
  if title.length < 1 ∨ 200 < title.length then .error .validation
  else
    match db? with
    | none => .error .databaseNotConfigured
    | some db =>
      let data : SessionDoc :=
        { oid := newId, title := strip title, created_at := now, updated_at := now }
      .ok ({ db with studysession := db.studysession ++ [data] }, newId, data.title)

/-- `GET /api/sessions` (src/main.py lines 133-138): sessions sorted by
`updated_at` descending, limited to `max(1, min(limit, 100))`, default
limit 20 when the query parameter is absent. -/
def list_sessions (db? : Option DB) (limit : Option Int) : Except ApiError (List SessionDoc) :=
  match db? with
  | none => .error .databaseNotConfigured
  | some db =>
    .ok ((sortBy (fun a b => decide (b.updated_at ≤ a.updated_at)) db.studysession).take
      (max 1 (min (limit.getD 20) 100)).toNat)

/-- `GET /api/sessions/.../messages` (src/main.py lines 140-145): messages of
the session sorted by `created_at` ascending, limited to
`max(1, min(limit, 500))`, default limit 100. -/
def get_messages (session_id : Str) (db? : Option DB) (limit : Option Int) :
    Except ApiError (List Msg) :=
  match db? with
  | none => .error .databaseNotConfigured
  | some db =>
    .ok ((sortBy (fun a b => decide (a.created_at ≤ b.created_at))
      (db.message.filter (fun m => m.session_id == session_id))).take
      (max 1 (min (limit.getD 100) 500)).toNat)

/-- `POST /api/sessions/.../messages` (src/main.py lines 147-182).  Pydantic
validates the raw `content` against `min_length=1`.  The four successive
`datetime.now` reads become `t1` (user message, line 152), `t2` (assistant
`created_at`, line 167), `t3` (assistant `updated_at`, line 168) and `t4`
(session touch, line 177).  `touchErr` models a store exception thrown by the
`update_one` call, swallowed by the bare `except`. -/
def post_message (session_id content : Str) (db? : Option DB)
    (t1 t2 t3 t4 : Nat) (touchErr : Bool) :
    Except ApiError (DB × Msg × Msg) :=
  if content.length < 1 then .error .validation
  else
    match db? with
    | none => .error .databaseNotConfigured
    | some db =>
      let user_msg : Msg :=
        { session_id := session_id, role := userRole, content := strip content,
          created_at := t1, updated_at := t1 }
      let db1 : DB := { db with message := db.message ++ [user_msg] }
      let asst_msg : Msg :=
        { session_id := session_id, role := assistantRole,
          content := generate_explanation content, created_at := t2, updated_at := t3 }
      let db2 : DB := { db1 with message := db1.message ++ [asst_msg] }
      let db3 : DB :=
        if objectIdIsValid session_id then
          if touchErr then db2
          else { db2 with
                 studysession := updateSessionUpdatedAt session_id t4 db2.studysession }
        else db2
      .ok (db3, user_msg, asst_msg)

/-- The user message record `post_message` inserts first. -/
def mkUserMsg (sid content : Str) (t1 : Nat) : Msg :=
  { session_id := sid, role := userRole, content := strip content,
    created_at := t1, updated_at := t1 }

/-- The assistant message record `post_message` inserts second; its content is
the generator applied to the raw, untrimmed request content. -/
def mkAsstMsg (sid content : Str) (t2 t3 : Nat) : Msg :=
  { session_id := sid, role := assistantRole, content := generate_explanation content,
    created_at := t2, updated_at := t3 }

/-- The database after the two message inserts of `post_message`. -/
def postDb2 (sid content : Str) (db : DB) (t1 t2 t3 : Nat) : DB :=
  { db with message := (db.message ++ [mkUserMsg sid content t1]) ++ [mkAsstMsg sid content t2 t3] }

/-- The database `post_message` leaves behind: the two inserts, then the
best-effort session touch. -/
def postDb3 (sid content : Str) (db : DB) (t1 t2 t3 t4 : Nat) (touchErr : Bool) : DB :=
  if objectIdIsValid sid then
    if touchErr then postDb2 sid content db t1 t2 t3
    else { postDb2 sid content db t1 t2 t3 with
           studysession := updateSessionUpdatedAt sid t4 (postDb2 sid content db t1 t2 t3).studysession }
  else postDb2 sid content db t1 t2 t3

/-- Projection: the assistant message of a successful `post_message` result. -/
def asstOf : Except ApiError (DB × Msg × Msg) → Option Msg
  | .ok (_, _, a) => some a
  | .error _ => none

/-- Whether a handler result is a pydantic validation failure. -/
def isValidationError {α : Type} : Except ApiError α → Bool
  | .error .validation => true
  | .error .databaseNotConfigured => false
  | .ok _ => false

/-- Concrete request content used in witnesses and counterexamples. -/
def wContent : Str := "entropy".toList

/-- A session id that is not a syntactically valid ObjectId. -/
def wSid : Str := "abc".toList

/-- An empty database. -/
def emptyDb : DB := { studysession := [], message := [] }

/-- A syntactically valid 24-hex-character session id. -/
def wSidValid : Str := "ffffffffffffffffffffffff".toList

/-- A stored session with the valid id above. -/
def wSession : SessionDoc :=
  { oid := "ffffffffffffffffffffffff".toList, title := "t".toList,
    created_at := 0, updated_at := 0 }

/-- A database holding one session. -/
def wDb1 : DB := { studysession := [wSession], message := [] }

/-- A whitespace-only title: raw length 1, trimmed length 0. -/
def wsTitle : Str := [' ']

/-- A concrete store-generated identifier. -/
def wOid : Str := "64a1f0c2b3d4e5f601234567".toList

/-- A topic with surrounding whitespace, distinguishing the raw and trimmed
header claims. -/
def rawTopic : Str := [' ', 'x', ' ']

/-! Helper lemmas. -/

theorem dropWhile_dropWhile (p : Char → Bool) (l : List Char) :
    (l.dropWhile p).dropWhile p = l.dropWhile p := by
  induction l with
  | nil => rfl
  | cons c cs ih => cases hc : p c <;> simp [List.dropWhile_cons, hc, ih]

theorem exists_append_dropWhile (p : Char → Bool) (l : List Char) :
    ∃ t, t ++ l.dropWhile p = l := by
  induction l with
  | nil => exact ⟨[], rfl⟩
  | cons c cs ih =>
    cases hc : p c
    · exact ⟨[], by simp [List.dropWhile_cons, hc]⟩
    · obtain ⟨t, ht⟩ := ih
      exact ⟨c :: t, by simp [List.dropWhile_cons, hc, ht]⟩

theorem length_dropWhile_le (p : Char → Bool) (l : List Char) :
    (l.dropWhile p).length ≤ l.length := by
  induction l with
  | nil => exact Nat.le_refl _
  | cons c cs ih =>
    cases hc : p c <;> simp [List.dropWhile_cons, hc]
    exact Nat.le_succ_of_le ih

/-- Stripping leading whitespace twice is stripping it once. -/
theorem lstrip_lstrip (s : Str) : lstrip (lstrip s) = lstrip s :=
  dropWhile_dropWhile isPySpace s

/-- A left-stripped list is untouched by trailing-whitespace removal followed
by another leading strip. -/
theorem lstrip_rstrip (m : Str) (hm : lstrip m = m) : lstrip (rstrip m) = rstrip m := by
  unfold rstrip
  cases hr : (m.reverse.dropWhile isPySpace).reverse with
  | nil => rfl
  | cons c cs =>
    obtain ⟨t, ht⟩ := exists_append_dropWhile isPySpace m.reverse
    have hm' : m = c :: cs ++ t.reverse := by
      have := congrArg List.reverse ht
      rw [List.reverse_append, List.reverse_reverse] at this
      rw [← this, hr]
    have hpc : isPySpace c = false := by
      by_contra hpc
      rw [Bool.not_eq_false] at hpc
      have hdrop : lstrip m = lstrip (cs ++ t.reverse) := by
        rw [hm'] at hm ⊢
        unfold lstrip at hm ⊢
        simp [List.dropWhile_cons, hpc]
      have hlen : (lstrip (cs ++ t.reverse)).length ≤ (cs ++ t.reverse).length :=
        length_dropWhile_le _ _
      rw [← hdrop, hm, hm'] at hlen
      simp at hlen
    unfold lstrip
    simp [List.dropWhile_cons, hpc]

/-- Stripping trailing whitespace is idempotent. -/
theorem rstrip_rstrip (m : Str) : rstrip (rstrip m) = rstrip m := by
  unfold rstrip
  rw [List.reverse_reverse, dropWhile_dropWhile]

/-- Python `strip` is idempotent. -/
theorem strip_idem (s : Str) : strip (strip s) = strip s := by
  unfold strip
  rw [lstrip_rstrip (lstrip s) (lstrip_lstrip s), rstrip_rstrip]

/-- Unfolding lemma: on content passing validation, `post_message` against a
configured store returns the touched database and the two message records. -/
theorem post_message_eq (sid content : Str) (db : DB) (t1 t2 t3 t4 : Nat) (e : Bool)
    (hv : 1 ≤ content.length) :
    post_message sid content (some db) t1 t2 t3 t4 e =
      .ok (postDb3 sid content db t1 t2 t3 t4 e, mkUserMsg sid content t1,
        mkAsstMsg sid content t2 t3) := by
  unfold post_message
  rw [if_neg (by omega)]
  rfl

/-- The message collection after `post_message`: both branches of the touch
leave it at the two appended records. -/
theorem postDb3_message (sid content : Str) (db : DB) (t1 t2 t3 t4 : Nat) (e : Bool) :
    (postDb3 sid content db t1 t2 t3 t4 e).message =
      (db.message ++ [mkUserMsg sid content t1]) ++ [mkAsstMsg sid content t2 t3] := by
  unfold postDb3
  by_cases h : objectIdIsValid sid = true <;> cases e <;> simp [h, postDb2]

/-- Any successful `post_message` run carries as assistant content exactly the
generator applied to the raw request content. -/
theorem post_message_ok_asst_content (sid content : Str) (db? : Option DB)
    (t1 t2 t3 t4 : Nat) (e : Bool) (d : DB) (u a : Msg)
    (h : post_message sid content db? t1 t2 t3 t4 e = .ok (d, u, a)) :
    a.content = generate_explanation content := by
  unfold post_message at h
  by_cases hc : content.length < 1
  · rw [if_pos hc] at h
    exact Except.noConfusion h
  · rw [if_neg hc] at h
    cases db? with
    | none => exact Except.noConfusion h
    | some db =>
      simp only [Except.ok.injEq, Prod.mk.injEq] at h
      obtain ⟨-, -, ha⟩ := h
      subst ha
      rfl

/-- Clamping to a range is idempotent. -/
theorem clamp_clamp (lo hi n : Int) (h : lo ≤ hi) :
    max lo (min (max lo (min n hi)) hi) = max lo (min n hi) := by
  simp only [min_def, max_def]
  split_ifs <;> omega

/-- Two limits with the same clamp make `list_sessions` behave identically. -/
theorem list_sessions_clamps (db : DB) (m k : Int)
    (h : max 1 (min m 100) = max 1 (min k 100)) :
    list_sessions (some db) (some m) = list_sessions (some db) (some k) := by
  simp only [list_sessions, Option.getD_some]
  rw [h]

/-- Two limits with the same clamp make `get_messages` behave identically. -/
theorem get_messages_clamps (sid : Str) (db : DB) (m k : Int)
    (h : max 1 (min m 500) = max 1 (min k 500)) :
    get_messages sid (some db) (some m) = get_messages sid (some db) (some k) := by
  simp only [get_messages, Option.getD_some]
  rw [h]

/-! Claim theorems. -/

/-- C1: every accepted `post_message` call inserts exactly two message
records, in order first the `user` one then the `assistant` one, and under a
monotone clock the assistant `created_at` is at least the user `created_at`. -/
theorem post_message_inserts_user_then_assistant
    (sid content : Str) (db : DB) (t1 t2 t3 t4 : Nat) (e : Bool)
    (hv : 1 ≤ content.length) (hmono : t1 ≤ t2) :
    ∃ d u a, post_message sid content (some db) t1 t2 t3 t4 e = .ok (d, u, a) ∧
      d.message = db.message ++ [u, a] ∧ u.role = userRole ∧ a.role = assistantRole ∧
      u.created_at ≤ a.created_at := by
  refine ⟨_, _, _, post_message_eq sid content db t1 t2 t3 t4 e hv, ?_, rfl, rfl, hmono⟩
  rw [postDb3_message]
  simp

/-- Witness for C1 at a concrete call. -/
theorem post_message_inserts_user_then_assistant_witness :
    1 ≤ wContent.length ∧ (0 : Nat) ≤ 1 ∧
      (∃ d u a, post_message wSid wContent (some emptyDb) 0 1 2 3 false = .ok (d, u, a) ∧
        d.message = emptyDb.message ++ [u, a] ∧ u.role = userRole ∧ a.role = assistantRole ∧
        u.created_at ≤ a.created_at) :=
  ⟨by decide, by decide, post_message_inserts_user_then_assistant wSid wContent emptyDb
    0 1 2 3 false (by decide) (by decide)⟩

/-- C2: the stored user message content is the trimmed input, while the
assistant content is the generator applied to the original untrimmed input. -/
theorem post_message_content_asymmetry
    (sid content : Str) (db : DB) (t1 t2 t3 t4 : Nat) (e : Bool)
    (hv : 1 ≤ content.length) :
    ∃ d u a, post_message sid content (some db) t1 t2 t3 t4 e = .ok (d, u, a) ∧
      u.content = strip content ∧ a.content = generate_explanation content :=
  ⟨_, _, _, post_message_eq sid content db t1 t2 t3 t4 e hv, rfl, rfl⟩

/-- Witness for C2 at a concrete call. -/
theorem post_message_content_asymmetry_witness :
    1 ≤ wContent.length ∧
      (∃ d u a, post_message wSid wContent (some emptyDb) 4 5 6 7 true = .ok (d, u, a) ∧
        u.content = strip wContent ∧ a.content = generate_explanation wContent) :=
  ⟨by decide, post_message_content_asymmetry wSid wContent emptyDb 4 5 6 7 true (by decide)⟩

/-- C4 counterexample: at an accepted concrete call whose second and third
clock reads differ, the inserted assistant record has `created_at = 1` but
`updated_at = 2`, refuting that both carry one shared stamp. -/
theorem post_message_single_asst_stamp_counterexample :
    (asstOf (post_message wSid wContent (some emptyDb) 0 1 2 3 false)).map Msg.created_at
        = some 1 ∧
    (asstOf (post_message wSid wContent (some emptyDb) 0 1 2 3 false)).map Msg.updated_at
        = some 2 ∧
    some (1 : Nat) ≠ some 2 :=
  ⟨rfl, rfl, by decide⟩

/-- C4 (amended): the assistant record's `created_at` and `updated_at` come
from two separate consecutive clock reads, `created_at` first, so under a
monotone clock `created_at ≤ updated_at`, with equality not guaranteed. -/
theorem post_message_asst_two_clock_reads
    (sid content : Str) (db : DB) (t1 t2 t3 t4 : Nat) (e : Bool)
    (hv : 1 ≤ content.length) (h23 : t2 ≤ t3) :
    ∃ d u a, post_message sid content (some db) t1 t2 t3 t4 e = .ok (d, u, a) ∧
      a.created_at = t2 ∧ a.updated_at = t3 ∧ a.created_at ≤ a.updated_at :=
  ⟨_, _, _, post_message_eq sid content db t1 t2 t3 t4 e hv, rfl, rfl, h23⟩

/-- Witness for the amended C4 at a concrete call. -/
theorem post_message_asst_two_clock_reads_witness :
    1 ≤ wContent.length ∧ (5 : Nat) ≤ 9 ∧
      (∃ d u a, post_message wSid wContent (some emptyDb) 4 5 9 10 false = .ok (d, u, a) ∧
        a.created_at = 5 ∧ a.updated_at = 9 ∧ a.created_at ≤ a.updated_at) :=
  ⟨by decide, by decide, post_message_asst_two_clock_reads wSid wContent emptyDb
    4 5 9 10 false (by decide) (by decide)⟩

/-- C8: for every session id — valid ObjectId or not, stored or not — valid
content makes `post_message` succeed with both inserts; the session touch is
applied only for a syntactically valid ObjectId, and a store error during the
touch is swallowed, leaving the sessions untouched. -/
theorem post_message_touch_best_effort
    (sid content : Str) (db : DB) (t1 t2 t3 t4 : Nat) (e : Bool)
    (hv : 1 ≤ content.length) :
    ∃ d u a, post_message sid content (some db) t1 t2 t3 t4 e = .ok (d, u, a) ∧
      d.message = db.message ++ [u, a] ∧
      (objectIdIsValid sid = false → d.studysession = db.studysession) ∧
      (e = true → d.studysession = db.studysession) ∧
      (objectIdIsValid sid = true → e = false →
        d.studysession = updateSessionUpdatedAt sid t4 db.studysession) := by
  refine ⟨_, _, _, post_message_eq sid content db t1 t2 t3 t4 e hv, ?_, ?_, ?_, ?_⟩
  · rw [postDb3_message]; simp
  · intro hno; simp [postDb3, postDb2, hno]
  · intro he; subst he
    by_cases hok : objectIdIsValid sid = true <;> simp [postDb3, postDb2, hok]
  · intro hok herr; subst herr; simp [postDb3, postDb2, hok]

/-- Witness for C8 at a concrete call: content posted against an id that is
not a valid ObjectId and with the store erroring on the touch. -/
theorem post_message_touch_best_effort_witness :
    1 ≤ wContent.length ∧
      (∃ d u a, post_message wSid wContent (some emptyDb) 2 3 4 5 true = .ok (d, u, a) ∧
        d.message = emptyDb.message ++ [u, a] ∧
        (objectIdIsValid wSid = false → d.studysession = emptyDb.studysession) ∧
        (true = true → d.studysession = emptyDb.studysession) ∧
        (objectIdIsValid wSid = true → true = false →
          d.studysession = updateSessionUpdatedAt wSid 5 emptyDb.studysession)) :=
  ⟨by decide, post_message_touch_best_effort wSid wContent emptyDb 2 3 4 5 true (by decide)⟩

/-- C9: the assistant text is a pure, deterministic function of the request
content alone — any two successful `post_message` runs with the same content
but arbitrary differing session ids, database states, clock reads and touch
outcomes produce byte-identical assistant content, namely the generator
output. -/
theorem generate_explanation_deterministic
    (content sid1 sid2 : Str) (db1 db2 : Option DB)
    (t1 t2 t3 t4 s1 s2 s3 s4 : Nat) (e1 e2 : Bool)
    (d1 d2 : DB) (u1 u2 a1 a2 : Msg)
    (h1 : post_message sid1 content db1 t1 t2 t3 t4 e1 = .ok (d1, u1, a1))
    (h2 : post_message sid2 content db2 s1 s2 s3 s4 e2 = .ok (d2, u2, a2)) :
    a1.content = a2.content ∧ a1.content = generate_explanation content :=
  ⟨(post_message_ok_asst_content sid1 content db1 t1 t2 t3 t4 e1 d1 u1 a1 h1).trans
      (post_message_ok_asst_content sid2 content db2 s1 s2 s3 s4 e2 d2 u2 a2 h2).symm,
    post_message_ok_asst_content sid1 content db1 t1 t2 t3 t4 e1 d1 u1 a1 h1⟩

/-- Witness for C9: two concrete runs of `post_message` with the same content
but different session ids, stores, clocks and touch outcomes. -/
theorem generate_explanation_deterministic_witness :
    post_message wSid wContent (some emptyDb) 0 1 2 3 false =
      .ok (postDb3 wSid wContent emptyDb 0 1 2 3 false, mkUserMsg wSid wContent 0,
        mkAsstMsg wSid wContent 1 2) ∧
    post_message wSidValid wContent (some wDb1) 4 5 6 7 true =
      .ok (postDb3 wSidValid wContent wDb1 4 5 6 7 true, mkUserMsg wSidValid wContent 4,
        mkAsstMsg wSidValid wContent 5 6) ∧
    ((mkAsstMsg wSid wContent 1 2).content = (mkAsstMsg wSidValid wContent 5 6).content ∧
      (mkAsstMsg wSid wContent 1 2).content = generate_explanation wContent) :=
  ⟨rfl, rfl,
    generate_explanation_deterministic wContent wSid wSidValid (some emptyDb) (some wDb1)
      0 1 2 3 4 5 6 7 false true
      (postDb3 wSid wContent emptyDb 0 1 2 3 false)
      (postDb3 wSidValid wContent wDb1 4 5 6 7 true)
      (mkUserMsg wSid wContent 0) (mkUserMsg wSidValid wContent 4)
      (mkAsstMsg wSid wContent 1 2) (mkAsstMsg wSidValid wContent 5 6) rfl rfl⟩

/-- C3 counterexample: the whitespace-only title of raw length 1 passes
validation and creates a session although its trimmed length is 0, so
`create_session` does not fail exactly on trimmed-length violations. -/
theorem validation_on_trimmed_length_counterexample :
    ¬ ((isValidationError (create_session wsTitle (some emptyDb) 0 wOid) = true) ↔
      ¬ (1 ≤ (strip wsTitle).length ∧ (strip wsTitle).length ≤ 200)) := by
  decide

/-- C3 (amended): validation applies to the raw, untrimmed lengths:
`create_session` fails with a validation error iff the raw title length is
outside 1..200 (so a whitespace-only title within the raw bounds is accepted,
stored with its possibly empty trimmed form), and `post_message` fails with a
validation error iff the raw content is empty. -/
theorem validation_on_raw_length
    (title sid content oid : Str) (db? : Option DB) (t t1 t2 t3 t4 : Nat) (e : Bool) :
    (isValidationError (create_session title db? t oid) = true ↔
      ¬ (1 ≤ title.length ∧ title.length ≤ 200)) ∧
    (isValidationError (post_message sid content db? t1 t2 t3 t4 e) = true ↔
      content.length < 1) := by
  constructor
  · unfold create_session
    by_cases h : title.length < 1 ∨ 200 < title.length
    · rw [if_pos h]
      exact iff_of_true rfl (by omega)
    · rw [if_neg h]
      refine iff_of_false ?_ (by omega)
      cases db? with
      | none => simp [isValidationError]
      | some db => simp [isValidationError]
  · unfold post_message
    by_cases h : content.length < 1
    · rw [if_pos h]
      exact iff_of_true rfl h
    · rw [if_neg h]
      refine iff_of_false ?_ h
      cases db? with
      | none => simp [isValidationError]
      | some db => simp [isValidationError]

/-- C5 counterexample: on input " x " the output does not begin with the
header built from the raw topic — the generator strips the topic first, so
the header line is `Topic: x` with 8 equals signs, not `Topic:  x ` with 10. -/
theorem header_uses_raw_topic_counterexample :
    ¬ ∃ rest, generate_explanation rawTopic = specHeader rawTopic ++ rest := by
  rintro ⟨rest, h⟩
  have htake : (generate_explanation rawTopic).take (specHeader rawTopic).length
      = specHeader rawTopic := by
    rw [h]
    exact List.take_left _ _
  exact absurd htake (by decide)

/-- C5 (amended): for every topic the output begins with the header built from
the trimmed topic: the literal `Topic: ` followed by the trimmed topic on one
line, then a line made only of equals signs whose length is seven plus the
trimmed topic's length. -/
theorem header_uses_trimmed_topic (topic : Str) :
    ∃ rest, generate_explanation topic = specHeader (strip topic) ++ rest := by
  refine ⟨nn ++ List.intercalate nn (sectionsList (strip topic)), ?_⟩
  simp only [generate_explanation, specHeader, topicLabel, List.append_assoc]

/-- C6: the output is the header built from the trimmed topic, a blank line,
then exactly the eight fixed sections joined by blank lines; each section
begins with its spec-fixed title, in the spec-fixed order, and every section
other than the first is independent of the topic. -/
theorem generate_explanation_structure (topic : Str) :
    generate_explanation topic =
      specHeader (strip topic) ++ nn ++ List.intercalate nn (sectionsList (strip topic)) ∧
    (sectionsList (strip topic)).length = 8 ∧
    (∀ u v : Str, (sectionsList u).drop 1 = (sectionsList v).drop 1) ∧
    List.Forall₂ (fun ttl s => ∃ rest, s = ttl ++ rest)
      specTitles (sectionsList (strip topic)) := by
  refine ⟨rfl, rfl, fun _ _ => rfl, ?_⟩
  refine List.Forall₂.cons ⟨_, rfl⟩ ?_
  refine List.Forall₂.cons ⟨_, rfl⟩ ?_
  refine List.Forall₂.cons ⟨_, rfl⟩ ?_
  refine List.Forall₂.cons ⟨_, rfl⟩ ?_
  refine List.Forall₂.cons ⟨_, rfl⟩ ?_
  refine List.Forall₂.cons ⟨_, rfl⟩ ?_
  refine List.Forall₂.cons ⟨_, rfl⟩ ?_
  exact List.Forall₂.cons ⟨_, rfl⟩ List.Forall₂.nil

/-- C7: both listing endpoints clamp their limit exactly as documented:
`list_sessions` to 1..100 with default 20, `get_messages` to 1..500 with
default 100; in particular limit 0 acts as limit 1 and limit 1000 as the
respective cap. -/
theorem limit_clamping (db : DB) (sid : Str) (n : Int) :
    list_sessions (some db) (some 0) = list_sessions (some db) (some 1) ∧
    list_sessions (some db) (some 1000) = list_sessions (some db) (some 100) ∧
    list_sessions (some db) none = list_sessions (some db) (some 20) ∧
    list_sessions (some db) (some n) = list_sessions (some db) (some (max 1 (min n 100))) ∧
    get_messages sid (some db) (some 0) = get_messages sid (some db) (some 1) ∧
    get_messages sid (some db) (some 1000) = get_messages sid (some db) (some 500) ∧
    get_messages sid (some db) none = get_messages sid (some db) (some 100) ∧
    get_messages sid (some db) (some n) = get_messages sid (some db) (some (max 1 (min n 500))) :=
  ⟨list_sessions_clamps db 0 1 (by decide),
   list_sessions_clamps db 1000 100 (by decide),
   rfl,
   list_sessions_clamps db n (max 1 (min n 100)) (clamp_clamp 1 100 n (by decide)).symm,
   get_messages_clamps sid db 0 1 (by decide),
   get_messages_clamps sid db 1000 500 (by decide),
   rfl,
   get_messages_clamps sid db n (max 1 (min n 500)) (clamp_clamp 1 500 n (by decide)).symm⟩

/-- C10: the generator trims internally, so it is invariant under trimming its
argument — the raw/trimmed asymmetry in `post_message` never changes the
assistant content relative to feeding it the trimmed content. -/
theorem generate_explanation_strip_invariant (topic : Str) :
    generate_explanation topic = generate_explanation (strip topic) := by
  simp only [generate_explanation, strip_idem]

end StudyBackend
